import Mathlib

/-!
Verification development for the NVMe-MI interface layer of libnvme
(src/nvme/mi.h): the wire-format header codecs, the Admin command transfer
engine (raw single exchange, chunked Get Log Page, Identify with a partial
range, Security Send/Receive), and the endpoint/controller lifecycle.

The header structures are translated field-for-field from the C declarations
in src/nvme/mi.h. The engine and lifecycle functions are declared in that
header but implemented elsewhere; those are modelled from the specification
text, as marked on each definition.
-/

namespace LibnvmeMi

/-! ### Little-endian byte primitives (the le16/le32 struct field types) -/

def le16 (n : Nat) : List Nat := [n % 256, n / 256 % 256]

def le32 (n : Nat) : List Nat :=
  [n % 256, n / 256 % 256, n / 65536 % 256, n / 16777216 % 256]

def rd16 (a b : Nat) : Nat := a + 256 * b

def rd32 (a b c d : Nat) : Nat := a + 256 * b + 65536 * c + 16777216 * d

/-! ### struct nvme_mi_msg_hdr (general MI message header, 4 bytes, packed) -/

structure nvme_mi_msg_hdr where
  type : Nat
  nmp : Nat
  meb : Nat
  rsvd0 : Nat
deriving DecidableEq

def nvme_mi_msg_hdr.wf (h : nvme_mi_msg_hdr) : Prop :=
  h.type < 256 ∧ h.nmp < 256 ∧ h.meb < 256 ∧ h.rsvd0 < 256

instance (h : nvme_mi_msg_hdr) : Decidable h.wf := by
  unfold nvme_mi_msg_hdr.wf
  infer_instance

def nvme_mi_msg_hdr.encode (h : nvme_mi_msg_hdr) : List Nat :=
  [h.type % 256, h.nmp % 256, h.meb % 256, h.rsvd0 % 256]

def nvme_mi_msg_hdr.decode : List Nat → Option (nvme_mi_msg_hdr × List Nat)
  | t :: n :: m :: r :: rest => some (⟨t, n, m, r⟩, rest)
  | _ => none

/-! ### struct nvme_mi_mi_req_hdr (MI request header, 16 bytes) -/

structure nvme_mi_mi_req_hdr where
  hdr : nvme_mi_msg_hdr
  opcode : Nat
  rsvd0 : Nat × Nat × Nat
  cdw0 : Nat
  cdw1 : Nat
deriving DecidableEq

def nvme_mi_mi_req_hdr.wf (h : nvme_mi_mi_req_hdr) : Prop :=
  h.hdr.wf ∧ h.opcode < 256 ∧ h.rsvd0.1 < 256 ∧ h.rsvd0.2.1 < 256 ∧
    h.rsvd0.2.2 < 256 ∧ h.cdw0 < 4294967296 ∧ h.cdw1 < 4294967296

instance (h : nvme_mi_mi_req_hdr) : Decidable h.wf := by
  unfold nvme_mi_mi_req_hdr.wf
  infer_instance

def nvme_mi_mi_req_hdr.encode (h : nvme_mi_mi_req_hdr) : List Nat :=
  h.hdr.encode ++
    [h.opcode % 256, h.rsvd0.1 % 256, h.rsvd0.2.1 % 256, h.rsvd0.2.2 % 256] ++
    le32 h.cdw0 ++ le32 h.cdw1

def nvme_mi_mi_req_hdr.decode : List Nat → Option (nvme_mi_mi_req_hdr × List Nat)
  | t :: n :: m :: r :: opc :: r0 :: r1 :: r2 ::
      a0 :: a1 :: a2 :: a3 :: b0 :: b1 :: b2 :: b3 :: rest =>
    some (⟨⟨t, n, m, r⟩, opc, (r0, r1, r2), rd32 a0 a1 a2 a3, rd32 b0 b1 b2 b3⟩, rest)
  | _ => none

/-! ### struct nvme_mi_mi_resp_hdr (MI response header, 8 bytes) -/

structure nvme_mi_mi_resp_hdr where
  hdr : nvme_mi_msg_hdr
  status : Nat
  nmresp : Nat × Nat × Nat
deriving DecidableEq

def nvme_mi_mi_resp_hdr.wf (h : nvme_mi_mi_resp_hdr) : Prop :=
  h.hdr.wf ∧ h.status < 256 ∧ h.nmresp.1 < 256 ∧ h.nmresp.2.1 < 256 ∧
    h.nmresp.2.2 < 256

instance (h : nvme_mi_mi_resp_hdr) : Decidable h.wf := by
  unfold nvme_mi_mi_resp_hdr.wf
  infer_instance

def nvme_mi_mi_resp_hdr.encode (h : nvme_mi_mi_resp_hdr) : List Nat :=
  h.hdr.encode ++
    [h.status % 256, h.nmresp.1 % 256, h.nmresp.2.1 % 256, h.nmresp.2.2 % 256]

def nvme_mi_mi_resp_hdr.decode : List Nat → Option (nvme_mi_mi_resp_hdr × List Nat)
  | t :: n :: m :: r :: st :: r0 :: r1 :: r2 :: rest =>
    some (⟨⟨t, n, m, r⟩, st, (r0, r1, r2)⟩, rest)
  | _ => none

/-! ### struct nvme_mi_admin_req_hdr (Admin request header, packed) -/

structure nvme_mi_admin_req_hdr where
  hdr : nvme_mi_msg_hdr
  opcode : Nat
  flags : Nat
  ctrl_id : Nat
  cdw1 : Nat
  cdw2 : Nat
  cdw3 : Nat
  cdw4 : Nat
  cdw5 : Nat
  doff : Nat
  dlen : Nat
  rsvd0 : Nat
  rsvd1 : Nat
  cdw10 : Nat
  cdw11 : Nat
  cdw12 : Nat
  cdw13 : Nat
  cdw14 : Nat
  cdw15 : Nat
deriving DecidableEq

def nvme_mi_admin_req_hdr.wf (h : nvme_mi_admin_req_hdr) : Prop :=
  h.hdr.wf ∧ h.opcode < 256 ∧ h.flags < 256 ∧ h.ctrl_id < 65536 ∧
    h.cdw1 < 4294967296 ∧ h.cdw2 < 4294967296 ∧ h.cdw3 < 4294967296 ∧
    h.cdw4 < 4294967296 ∧ h.cdw5 < 4294967296 ∧ h.doff < 4294967296 ∧
    h.dlen < 4294967296 ∧ h.rsvd0 < 4294967296 ∧ h.rsvd1 < 4294967296 ∧
    h.cdw10 < 4294967296 ∧ h.cdw11 < 4294967296 ∧ h.cdw12 < 4294967296 ∧
    h.cdw13 < 4294967296 ∧ h.cdw14 < 4294967296 ∧ h.cdw15 < 4294967296

instance (h : nvme_mi_admin_req_hdr) : Decidable h.wf := by
  unfold nvme_mi_admin_req_hdr.wf
  infer_instance

def nvme_mi_admin_req_hdr.encode (h : nvme_mi_admin_req_hdr) : List Nat :=
  h.hdr.encode ++ [h.opcode % 256, h.flags % 256] ++ le16 h.ctrl_id ++
    le32 h.cdw1 ++ le32 h.cdw2 ++ le32 h.cdw3 ++ le32 h.cdw4 ++ le32 h.cdw5 ++
    le32 h.doff ++ le32 h.dlen ++ le32 h.rsvd0 ++ le32 h.rsvd1 ++
    le32 h.cdw10 ++ le32 h.cdw11 ++ le32 h.cdw12 ++ le32 h.cdw13 ++
    le32 h.cdw14 ++ le32 h.cdw15

def nvme_mi_admin_req_hdr.decode : List Nat → Option (nvme_mi_admin_req_hdr × List Nat)
  | t :: n :: m :: r :: opc :: fl :: ci0 :: ci1 ::
      a0 :: a1 :: a2 :: a3 :: b0 :: b1 :: b2 :: b3 ::
      c0 :: c1 :: c2 :: c3 :: d0 :: d1 :: d2 :: d3 ::
      e0 :: e1 :: e2 :: e3 :: f0 :: f1 :: f2 :: f3 ::
      g0 :: g1 :: g2 :: g3 :: h0 :: h1 :: h2 :: h3 ::
      i0 :: i1 :: i2 :: i3 :: j0 :: j1 :: j2 :: j3 ::
      k0 :: k1 :: k2 :: k3 :: l0 :: l1 :: l2 :: l3 ::
      m0 :: m1 :: m2 :: m3 :: n0 :: n1 :: n2 :: n3 ::
      o0 :: o1 :: o2 :: o3 :: rest =>
    some (⟨⟨t, n, m, r⟩, opc, fl, rd16 ci0 ci1,
      rd32 a0 a1 a2 a3, rd32 b0 b1 b2 b3, rd32 c0 c1 c2 c3,
      rd32 d0 d1 d2 d3, rd32 e0 e1 e2 e3, rd32 f0 f1 f2 f3,
      rd32 g0 g1 g2 g3, rd32 h0 h1 h2 h3, rd32 i0 i1 i2 i3,
      rd32 j0 j1 j2 j3, rd32 k0 k1 k2 k3, rd32 l0 l1 l2 l3,
      rd32 m0 m1 m2 m3, rd32 n0 n1 n2 n3, rd32 o0 o1 o2 o3⟩, rest)
  | _ => none

/-! ### struct nvme_mi_admin_resp_hdr (Admin response header, 20 bytes, packed) -/

structure nvme_mi_admin_resp_hdr where
  hdr : nvme_mi_msg_hdr
  status : Nat
  rsvd0 : Nat × Nat × Nat
  cdw0 : Nat
  cdw1 : Nat
  cdw3 : Nat
deriving DecidableEq

def nvme_mi_admin_resp_hdr.wf (h : nvme_mi_admin_resp_hdr) : Prop :=
  h.hdr.wf ∧ h.status < 256 ∧ h.rsvd0.1 < 256 ∧ h.rsvd0.2.1 < 256 ∧
    h.rsvd0.2.2 < 256 ∧ h.cdw0 < 4294967296 ∧ h.cdw1 < 4294967296 ∧
    h.cdw3 < 4294967296

instance (h : nvme_mi_admin_resp_hdr) : Decidable h.wf := by
  unfold nvme_mi_admin_resp_hdr.wf
  infer_instance

def nvme_mi_admin_resp_hdr.encode (h : nvme_mi_admin_resp_hdr) : List Nat :=
  h.hdr.encode ++
    [h.status % 256, h.rsvd0.1 % 256, h.rsvd0.2.1 % 256, h.rsvd0.2.2 % 256] ++
    le32 h.cdw0 ++ le32 h.cdw1 ++ le32 h.cdw3

def nvme_mi_admin_resp_hdr.decode : List Nat → Option (nvme_mi_admin_resp_hdr × List Nat)
  | t :: n :: m :: r :: st :: r0 :: r1 :: r2 ::
      a0 :: a1 :: a2 :: a3 :: b0 :: b1 :: b2 :: b3 ::
      c0 :: c1 :: c2 :: c3 :: rest =>
    some (⟨⟨t, n, m, r⟩, st, (r0, r1, r2),
      rd32 a0 a1 a2 a3, rd32 b0 b1 b2 b3, rd32 c0 c1 c2 c3⟩, rest)
  | _ => none

/-! ### C struct layout model: offsets with and without alignment padding.

Struct nvme_mi_msg_hdr, nvme_mi_admin_req_hdr and nvme_mi_admin_resp_hdr
carry a packed attribute in the source (alignment 1 for every field);
nvme_mi_mi_req_hdr and nvme_mi_mi_resp_hdr do not, so their fields keep
their natural alignments (the embedded packed nvme_mi_msg_hdr has
alignment 1, the le32 doublewords have alignment 4). -/

structure CField where
  size : Nat
  align : Nat
deriving DecidableEq

def alignUp (o a : Nat) : Nat := (o + a - 1) / a * a

def cOffsets : Nat → List CField → List Nat
  | _, [] => []
  | o, f :: fs => alignUp o f.align :: cOffsets (alignUp o f.align + f.size) fs

def packedOffsets : Nat → List CField → List Nat
  | _, [] => []
  | o, f :: fs => o :: packedOffsets (o + f.size) fs

def sizeSum (fs : List CField) : Nat := (fs.map CField.size).sum

def msg_hdr_fields : List CField := [⟨1, 1⟩, ⟨1, 1⟩, ⟨1, 1⟩, ⟨1, 1⟩]

def mi_req_hdr_fields : List CField := [⟨4, 1⟩, ⟨1, 1⟩, ⟨3, 1⟩, ⟨4, 4⟩, ⟨4, 4⟩]

def mi_resp_hdr_fields : List CField := [⟨4, 1⟩, ⟨1, 1⟩, ⟨3, 1⟩]

def admin_req_hdr_fields : List CField :=
  [⟨4, 1⟩, ⟨1, 1⟩, ⟨1, 1⟩, ⟨2, 1⟩,
   ⟨4, 1⟩, ⟨4, 1⟩, ⟨4, 1⟩, ⟨4, 1⟩, ⟨4, 1⟩,
   ⟨4, 1⟩, ⟨4, 1⟩, ⟨4, 1⟩, ⟨4, 1⟩,
   ⟨4, 1⟩, ⟨4, 1⟩, ⟨4, 1⟩, ⟨4, 1⟩, ⟨4, 1⟩, ⟨4, 1⟩]

def admin_resp_hdr_fields : List CField :=
  [⟨4, 1⟩, ⟨1, 1⟩, ⟨3, 1⟩, ⟨4, 1⟩, ⟨4, 1⟩, ⟨4, 1⟩]

/-! ### Command transfer engine.

The header src/nvme/mi.h only declares nvme_mi_admin_xfer,
nvme_mi_admin_get_log_page, nvme_mi_admin_identify_partial,
nvme_mi_admin_security_send and nvme_mi_admin_security_recv; their bodies
live outside the fragment, so the engine below is modelled from the
specification (command transfer engine, section 4.4, and the helper
contracts of section 4.5). A transport stub is a pure function from one
wire exchange request to its outcome, and every engine function also
returns the ordered trace of wire exchanges it issued. -/

/-- Error taxonomy of the specification: argument, transport, format and
command failures, the latter with the distinct truncated sub-kind, plus the
stale-reference failure for operations on controllers of a closed endpoint. -/
inductive CmdFailure where
  | status (code : Nat)
  | truncated
deriving DecidableEq

inductive MiErr where
  | argumentError
  | transportError
  | formatError
  | commandError (k : CmdFailure)
  | staleReference
deriving DecidableEq

/-- One wire exchange request: Admin opcode, command-specific doublewords
(semantically opaque to the engine), response data offset (doff), requested
response data length (dlen), and the outbound payload. -/
structure XferReq where
  opcode : Nat
  cdws : List Nat
  doff : Nat
  dlen : Nat
  reqPayload : List Nat
deriving DecidableEq

/-- Outcome of one wire exchange as produced by a transport stub: either a
response with status byte, three completion doublewords and a payload, or a
transport-level failure. -/
inductive XferOutcome where
  | resp (status c0 c1 c3 : Nat) (payload : List Nat)
  | failed
deriving DecidableEq

abbrev Transport := XferReq → XferOutcome

/-- Successful exchange result: completion doublewords plus payload bytes. -/
structure XferOk where
  cdw0 : Nat
  cdw1 : Nat
  cdw3 : Nat
  payload : List Nat
deriving DecidableEq

/-- Modelled from the spec: the body of nvme_mi_admin_xfer is not under src
(src/nvme/mi.h lines 428-459 declare it only). Raw single-exchange Admin
transfer, spec section 4.4 shape 1: one wire exchange when the outbound
payload and the requested response size both fit the transport window W,
rejected before any wire traffic otherwise; a transport failure maps to
transportError and a non-zero status byte to commandError per section 4.2. -/
def nvme_mi_admin_xfer (t : Transport) (W : Nat) (opc : Nat) (cdws : List Nat)
    (reqPayload : List Nat) (resp_data_offset resp_size : Nat) :
    Except MiErr XferOk × List XferReq :=
  if W < reqPayload.length ∨ W < resp_size then (.error .argumentError, [])
  else
    match t ⟨opc, cdws, resp_data_offset, resp_size, reqPayload⟩ with
    | .failed => (.error .transportError, [⟨opc, cdws, resp_data_offset, resp_size, reqPayload⟩])
    | .resp s c0 c1 c3 p =>
      if s = 0 then (.ok ⟨c0, c1, c3, p⟩, [⟨opc, cdws, resp_data_offset, resp_size, reqPayload⟩])
      else (.error (.commandError (.status s)), [⟨opc, cdws, resp_data_offset, resp_size, reqPayload⟩])

/-- Error the engine raises for one exchange outcome when it expects a chunk
of length c, mirroring the per-chunk checks of spec section 4.4.2; none means
the outcome is a success of exactly the requested length. -/
def outcomeErr : XferOutcome → Nat → Option MiErr
  | .failed, _ => some .transportError
  | .resp s _ _ _ p, c =>
    if s = 0 then
      if p.length = c then none else some (.commandError .truncated)
    else some (.commandError (.status s))

def NVME_ADMIN_GET_LOG_PAGE : Nat := 2

def NVME_ADMIN_IDENTIFY : Nat := 6

def NVME_ADMIN_SECURITY_SEND : Nat := 129

def NVME_ADMIN_SECURITY_RECV : Nat := 130

/-- Get Log Page argument structure (the fields of struct nvme_get_log_args
the engine reads: log identifier, namespace, base log page offset, total
requested data length). -/
structure nvme_get_log_args where
  lid : Nat
  nsid : Nat
  lpo : Nat
  data_len : Nat
deriving DecidableEq

/-- Identify argument structure (the fields of struct nvme_identify_args the
MI helpers populate). -/
structure nvme_identify_args where
  cns : Nat
  csi : Nat
  nsid : Nat
  cntid : Nat
  cns_specific_id : Nat
  uuidx : Nat
deriving DecidableEq

structure nvme_security_send_args where
  secp : Nat
  spsp0 : Nat
  spsp1 : Nat
  nssf : Nat
  data : List Nat
deriving DecidableEq

structure nvme_security_receive_args where
  secp : Nat
  spsp0 : Nat
  spsp1 : Nat
  nssf : Nat
  al : Nat
deriving DecidableEq

def identifyCdws (args : nvme_identify_args) : List Nat :=
  [args.cns, args.csi, args.nsid, args.cntid, args.cns_specific_id, args.uuidx]

def securityCdws (secp spsp0 spsp1 nssf : Nat) : List Nat :=
  [secp, spsp0, spsp1, nssf]

/-- Modelled from the spec: chunk loop of the chunked transfer, spec section
4.4.2, used by nvme_mi_admin_get_log_page (whose body is not under src).
Maintains the cursor and the remaining byte count, requests
chunk = min(remaining, W) bytes at the cursor through the raw transfer
primitive, verifies the returned length equals the requested chunk exactly
(a short return surfaces as the distinct truncated command error), and
aborts the whole transfer on any chunk failure. The fuel argument only
bounds the recursion; every caller passes fuel at least the remaining
count, which the positive window keeps sufficient. -/
def getLogChunksF (t : Transport) (W opc : Nat) (cdws : List Nat) :
    Nat → Nat → Nat → Except MiErr (List Nat) × List XferReq
  | _, _, 0 => (.ok [], [])
  | 0, _, _ => (.error .argumentError, [])
  | fuel + 1, cursor, remaining =>
    if W = 0 then (.error .argumentError, [])
    else
      match nvme_mi_admin_xfer t W opc cdws [] cursor (min remaining W) with
      | (.error e, tr) => (.error e, tr)
      | (.ok r, tr) =>
        if r.payload.length = min remaining W then
          match getLogChunksF t W opc cdws fuel (cursor + min remaining W)
              (remaining - min remaining W) with
          | (.error e, tr2) => (.error e, tr ++ tr2)
          | (.ok rest, tr2) => (.ok (r.payload ++ rest), tr ++ tr2)
        else (.error (.commandError .truncated), tr)

/-- Modelled from the spec: the body of nvme_mi_admin_get_log_page is not
under src (src/nvme/mi.h lines 612-630 declare it only). Chunked transfer of
args.data_len bytes starting at log page offset args.lpo over a transport
window of W bytes, per spec section 4.4.2. -/
def nvme_mi_admin_get_log_page (t : Transport) (W : Nat) (args : nvme_get_log_args) :
    Except MiErr (List Nat) × List XferReq :=
  getLogChunksF t W NVME_ADMIN_GET_LOG_PAGE [args.lid, args.nsid]
    args.data_len args.lpo args.data_len

/-- Modelled from the spec: the body of nvme_mi_admin_identify_partial is not
under src (src/nvme/mi.h lines 461-489 declare it only; the name here drops
its last word). Identify with a caller-bounded response range, spec section
4.4 shape 3: a single raw exchange whose actual returned length must equal
the requested length exactly; any deviation is a hard error. -/
def nvme_mi_admin_identify_range (t : Transport) (W : Nat)
    (args : nvme_identify_args) (offset size : Nat) :
    Except MiErr (List Nat) × List XferReq :=
  match nvme_mi_admin_xfer t W NVME_ADMIN_IDENTIFY (identifyCdws args) [] offset size with
  | (.error e, tr) => (.error e, tr)
  | (.ok r, tr) =>
    if r.payload.length = size then (.ok r.payload, tr)
    else (.error (.commandError .truncated), tr)

def NVME_IDENTIFY_DATA_SIZE : Nat := 4096

def NVME_CSI_NVM : Nat := 0

def NVME_CNTLID_NONE : Nat := 0

def NVME_CNSSPECID_NONE : Nat := 0

def NVME_UUID_NONE : Nat := 0

/-- Inline body from src/nvme/mi.h lines 507-512: nvme_mi_admin_identify
delegates to the partial-range identify at offset 0 for the full
NVME_IDENTIFY_DATA_SIZE bytes. -/
def nvme_mi_admin_identify (t : Transport) (W : Nat) (args : nvme_identify_args) :
    Except MiErr (List Nat) × List XferReq :=
  nvme_mi_admin_identify_range t W args 0 NVME_IDENTIFY_DATA_SIZE

/-- Inline body from src/nvme/mi.h lines 533-550: builds an identify argument
structure with the sentinel defaults NVME_CNTLID_NONE, NVME_CNSSPECID_NONE
and NVME_UUID_NONE populated, CSI fixed to NVME_CSI_NVM, and delegates to
nvme_mi_admin_identify. -/
def nvme_mi_admin_identify_cns_nsid (t : Transport) (W : Nat) (cns nsid : Nat) :
    Except MiErr (List Nat) × List XferReq :=
  nvme_mi_admin_identify t W
    ⟨cns, NVME_CSI_NVM, nsid, NVME_CNTLID_NONE, NVME_CNSSPECID_NONE, NVME_UUID_NONE⟩

/-- Modelled from the spec: the body of nvme_mi_admin_security_send is not
under src (src/nvme/mi.h lines 632-651 declare it only, documenting the
4096-byte payload ceiling). The helper rejects an oversized payload with an
argument error before any wire traffic and otherwise issues exactly one raw
exchange; Security Send is never chunked. -/
def nvme_mi_admin_security_send (t : Transport) (W : Nat)
    (args : nvme_security_send_args) : Except MiErr XferOk × List XferReq :=
  if 4096 < args.data.length then (.error .argumentError, [])
  else nvme_mi_admin_xfer t W NVME_ADMIN_SECURITY_SEND
    (securityCdws args.secp args.spsp0 args.spsp1 args.nssf) args.data 0 0

/-- Modelled from the spec: the body of nvme_mi_admin_security_recv is not
under src (src/nvme/mi.h lines 653-672 declare it only, documenting the
4096-byte payload ceiling). Mirror of the send helper for the receive
direction: oversized requested lengths are rejected before any wire traffic
and the transfer is never chunked. -/
def nvme_mi_admin_security_recv (t : Transport) (W : Nat)
    (args : nvme_security_receive_args) : Except MiErr XferOk × List XferReq :=
  if 4096 < args.al then (.error .argumentError, [])
  else nvme_mi_admin_xfer t W NVME_ADMIN_SECURITY_RECV
    (securityCdws args.secp args.spsp0 args.spsp1 args.nssf) [] 0 args.al

/-- Transport stub for the chunk-failure scenarios: answers a zero-status
response of exactly the requested length (through pay) to every exchange
whose data offset lies below the threshold B, and the fixed outcome bad to
every exchange at or past B. -/
def tWith (pay : Nat → Nat → List Nat) (bad : XferOutcome) (B c0 c1 c3 : Nat) :
    Transport :=
  fun r => if r.doff < B then .resp 0 c0 c1 c3 (pay r.doff r.dlen) else bad

/-! ### Endpoint / controller lifecycle.

The bodies of nvme_mi_close and nvme_mi_init_ctrl are not under src
(src/nvme/mi.h lines 312-338 declare them only); the registry below is
modelled from spec sections 4.3 and 9: an endpoint carries an explicit
closed flag, a controller holds a weak back-reference to its endpoint by
index, and every controller operation checks the flag before touching the
endpoint transport. -/

/-- World state of the registry: the closed flag of each endpoint, indexed
by endpoint number. -/
abbrev MiWorld := List Bool

structure nvme_mi_ctrl where
  ep : Nat
  ctrl_id : Nat
deriving DecidableEq

/-- Modelled from the spec: nvme_mi_close releases the endpoint, marking its
closed flag so that all controllers initialized under it become invalid. -/
def nvme_mi_close (w : MiWorld) (e : Nat) : MiWorld := w.set e true

/-- Modelled from the spec: nvme_mi_init_ctrl is pure bookkeeping against an
open endpoint; it contacts no device. -/
def nvme_mi_init_ctrl (w : MiWorld) (e cid : Nat) : Option nvme_mi_ctrl :=
  if w.getD e true = false then some ⟨e, cid⟩ else none

def epClosed (w : MiWorld) (e : Nat) : Bool := w.getD e true

/-- Modelled from the spec: every controller operation dispatches through the
owning endpoint, failing with the explicit stale-reference error, and never
touching the transport, once the endpoint is closed. -/
def ctrlDispatch (w : MiWorld) (tpt : Nat → Transport) (c : nvme_mi_ctrl)
    (k : Transport → Except MiErr XferOk × List XferReq) :
    Except MiErr XferOk × List XferReq :=
  if epClosed w c.ep = false then k (tpt c.ep)
  else (.error .staleReference, [])

/-! ### Wire codec lemmas -/

lemma rd16_le16 (c : Nat) (hc : c < 65536) :
    rd16 (c % 256) (c / 256 % 256) = c := by
  unfold rd16
  omega

lemma rd32_le32 (c : Nat) (hc : c < 4294967296) :
    rd32 (c % 256) (c / 256 % 256) (c / 65536 % 256) (c / 16777216 % 256) = c := by
  unfold rd32
  omega

lemma msg_hdr_encode_decode (h : nvme_mi_msg_hdr) (hw : h.wf) (rest : List Nat) :
    nvme_mi_msg_hdr.decode (h.encode ++ rest) = some (h, rest) := by
  obtain ⟨h1, h2, h3, h4⟩ := hw
  simp only [nvme_mi_msg_hdr.encode, List.cons_append, List.nil_append,
    nvme_mi_msg_hdr.decode]
  rw [Nat.mod_eq_of_lt h1, Nat.mod_eq_of_lt h2, Nat.mod_eq_of_lt h3,
    Nat.mod_eq_of_lt h4]

lemma mi_req_hdr_encode_decode (h : nvme_mi_mi_req_hdr) (hw : h.wf) (rest : List Nat) :
    nvme_mi_mi_req_hdr.decode (h.encode ++ rest) = some (h, rest) := by
  obtain ⟨⟨h1, h2, h3, h4⟩, h5, h6, h7, h8, h9, h10⟩ := hw
  simp only [nvme_mi_mi_req_hdr.encode, nvme_mi_msg_hdr.encode, le32,
    List.cons_append, List.nil_append, List.append_assoc,
    nvme_mi_mi_req_hdr.decode]
  rw [Nat.mod_eq_of_lt h1, Nat.mod_eq_of_lt h2, Nat.mod_eq_of_lt h3,
    Nat.mod_eq_of_lt h4, Nat.mod_eq_of_lt h5, Nat.mod_eq_of_lt h6,
    Nat.mod_eq_of_lt h7, Nat.mod_eq_of_lt h8, rd32_le32 _ h9, rd32_le32 _ h10]

lemma mi_resp_hdr_encode_decode (h : nvme_mi_mi_resp_hdr) (hw : h.wf) (rest : List Nat) :
    nvme_mi_mi_resp_hdr.decode (h.encode ++ rest) = some (h, rest) := by
  obtain ⟨⟨h1, h2, h3, h4⟩, h5, h6, h7, h8⟩ := hw
  simp only [nvme_mi_mi_resp_hdr.encode, nvme_mi_msg_hdr.encode,
    List.cons_append, List.nil_append, List.append_assoc,
    nvme_mi_mi_resp_hdr.decode]
  rw [Nat.mod_eq_of_lt h1, Nat.mod_eq_of_lt h2, Nat.mod_eq_of_lt h3,
    Nat.mod_eq_of_lt h4, Nat.mod_eq_of_lt h5, Nat.mod_eq_of_lt h6,
    Nat.mod_eq_of_lt h7, Nat.mod_eq_of_lt h8]

lemma admin_req_hdr_encode_decode (h : nvme_mi_admin_req_hdr) (hw : h.wf)
    (rest : List Nat) :
    nvme_mi_admin_req_hdr.decode (h.encode ++ rest) = some (h, rest) := by
  obtain ⟨⟨h1, h2, h3, h4⟩, h5, h6, h7, h8, h9, h10, h11, h12, h13, h14,
    h15, h16, h17, h18, h19, h20, h21, h22⟩ := hw
  simp only [nvme_mi_admin_req_hdr.encode, nvme_mi_msg_hdr.encode, le32, le16,
    List.cons_append, List.nil_append, List.append_assoc,
    nvme_mi_admin_req_hdr.decode]
  rw [Nat.mod_eq_of_lt h1, Nat.mod_eq_of_lt h2, Nat.mod_eq_of_lt h3,
    Nat.mod_eq_of_lt h4, Nat.mod_eq_of_lt h5, Nat.mod_eq_of_lt h6,
    rd16_le16 _ h7, rd32_le32 _ h8, rd32_le32 _ h9, rd32_le32 _ h10,
    rd32_le32 _ h11, rd32_le32 _ h12, rd32_le32 _ h13, rd32_le32 _ h14,
    rd32_le32 _ h15, rd32_le32 _ h16, rd32_le32 _ h17, rd32_le32 _ h18,
    rd32_le32 _ h19, rd32_le32 _ h20, rd32_le32 _ h21, rd32_le32 _ h22]

lemma admin_resp_hdr_encode_decode (h : nvme_mi_admin_resp_hdr) (hw : h.wf)
    (rest : List Nat) :
    nvme_mi_admin_resp_hdr.decode (h.encode ++ rest) = some (h, rest) := by
  obtain ⟨⟨h1, h2, h3, h4⟩, h5, h6, h7, h8, h9, h10, h11⟩ := hw
  simp only [nvme_mi_admin_resp_hdr.encode, nvme_mi_msg_hdr.encode, le32,
    List.cons_append, List.nil_append, List.append_assoc,
    nvme_mi_admin_resp_hdr.decode]
  rw [Nat.mod_eq_of_lt h1, Nat.mod_eq_of_lt h2, Nat.mod_eq_of_lt h3,
    Nat.mod_eq_of_lt h4, Nat.mod_eq_of_lt h5, Nat.mod_eq_of_lt h6,
    Nat.mod_eq_of_lt h7, Nat.mod_eq_of_lt h8, rd32_le32 _ h9, rd32_le32 _ h10,
    rd32_le32 _ h11]

/-- C6: encoding then decoding any valid header value (generic message
header, MI request/response header, Admin request/response header, with
arbitrary in-range field values) returns exactly the original field values,
with no residual bytes. -/
theorem header_codec_roundtrip :
    (∀ h : nvme_mi_msg_hdr, h.wf →
        nvme_mi_msg_hdr.decode h.encode = some (h, [])) ∧
    (∀ h : nvme_mi_mi_req_hdr, h.wf →
        nvme_mi_mi_req_hdr.decode h.encode = some (h, [])) ∧
    (∀ h : nvme_mi_mi_resp_hdr, h.wf →
        nvme_mi_mi_resp_hdr.decode h.encode = some (h, [])) ∧
    (∀ h : nvme_mi_admin_req_hdr, h.wf →
        nvme_mi_admin_req_hdr.decode h.encode = some (h, [])) ∧
    (∀ h : nvme_mi_admin_resp_hdr, h.wf →
        nvme_mi_admin_resp_hdr.decode h.encode = some (h, [])) := by
  refine ⟨fun h hw => ?_, fun h hw => ?_, fun h hw => ?_, fun h hw => ?_,
    fun h hw => ?_⟩
  · rw [← List.append_nil h.encode]; exact msg_hdr_encode_decode h hw []
  · rw [← List.append_nil h.encode]; exact mi_req_hdr_encode_decode h hw []
  · rw [← List.append_nil h.encode]; exact mi_resp_hdr_encode_decode h hw []
  · rw [← List.append_nil h.encode]; exact admin_req_hdr_encode_decode h hw []
  · rw [← List.append_nil h.encode]; exact admin_resp_hdr_encode_decode h hw []

/-- Witness for C6 at concrete header values. -/
theorem header_codec_roundtrip_witness :
    nvme_mi_msg_hdr.wf ⟨132, 8, 0, 0⟩ ∧
    nvme_mi_msg_hdr.decode (nvme_mi_msg_hdr.encode ⟨132, 8, 0, 0⟩) =
      some (⟨132, 8, 0, 0⟩, []) ∧
    nvme_mi_mi_req_hdr.decode
        (nvme_mi_mi_req_hdr.encode ⟨⟨132, 8, 0, 0⟩, 1, (0, 0, 0), 305419896, 2271560481⟩) =
      some (⟨⟨132, 8, 0, 0⟩, 1, (0, 0, 0), 305419896, 2271560481⟩, []) ∧
    nvme_mi_mi_resp_hdr.decode
        (nvme_mi_mi_resp_hdr.encode ⟨⟨132, 136, 0, 0⟩, 5, (9, 8, 7)⟩) =
      some (⟨⟨132, 136, 0, 0⟩, 5, (9, 8, 7)⟩, []) ∧
    nvme_mi_admin_req_hdr.decode
        (nvme_mi_admin_req_hdr.encode ⟨⟨132, 16, 0, 0⟩, 6, 0, 65535, 1, 2, 3, 4, 5,
          4096, 1024, 0, 0, 10, 11, 12, 13, 14, 4294967295⟩) =
      some (⟨⟨132, 16, 0, 0⟩, 6, 0, 65535, 1, 2, 3, 4, 5,
          4096, 1024, 0, 0, 10, 11, 12, 13, 14, 4294967295⟩, []) ∧
    nvme_mi_admin_resp_hdr.decode
        (nvme_mi_admin_resp_hdr.encode ⟨⟨132, 144, 0, 0⟩, 0, (0, 0, 0),
          3735928559, 1, 2⟩) =
      some (⟨⟨132, 144, 0, 0⟩, 0, (0, 0, 0), 3735928559, 1, 2⟩, []) :=
  ⟨by decide,
   header_codec_roundtrip.1 _ (by decide),
   header_codec_roundtrip.2.1 _ (by decide),
   header_codec_roundtrip.2.2.1 _ (by decide),
   header_codec_roundtrip.2.2.2.1 _ (by decide),
   header_codec_roundtrip.2.2.2.2 _ (by decide)⟩

/-- C7: every wire header structure is laid out with no implicit alignment
padding: for each of the five header structs, the C offsets computed with
the fields' alignments (packed structs have alignment 1, the two non-packed
MI headers keep natural alignments) coincide with the plain cumulative sums
of the preceding field sizes, and each encoder produces exactly the sum of
the field sizes in bytes. -/
theorem header_layout_no_padding :
    (cOffsets 0 msg_hdr_fields = packedOffsets 0 msg_hdr_fields ∧
     cOffsets 0 mi_req_hdr_fields = packedOffsets 0 mi_req_hdr_fields ∧
     cOffsets 0 mi_resp_hdr_fields = packedOffsets 0 mi_resp_hdr_fields ∧
     cOffsets 0 admin_req_hdr_fields = packedOffsets 0 admin_req_hdr_fields ∧
     cOffsets 0 admin_resp_hdr_fields = packedOffsets 0 admin_resp_hdr_fields) ∧
    (∀ h : nvme_mi_msg_hdr, h.encode.length = sizeSum msg_hdr_fields) ∧
    (∀ h : nvme_mi_mi_req_hdr, h.encode.length = sizeSum mi_req_hdr_fields) ∧
    (∀ h : nvme_mi_mi_resp_hdr, h.encode.length = sizeSum mi_resp_hdr_fields) ∧
    (∀ h : nvme_mi_admin_req_hdr, h.encode.length = sizeSum admin_req_hdr_fields) ∧
    (∀ h : nvme_mi_admin_resp_hdr, h.encode.length = sizeSum admin_resp_hdr_fields) :=
  ⟨by decide, fun _ => rfl, fun _ => rfl, fun _ => rfl,
   fun h => by
    simp [nvme_mi_admin_req_hdr.encode, nvme_mi_msg_hdr.encode, le32, le16,
      sizeSum, admin_req_hdr_fields],
   fun h => by
    simp [nvme_mi_admin_resp_hdr.encode, nvme_mi_msg_hdr.encode, le32,
      sizeSum, admin_resp_hdr_fields]⟩

/-- C5 (amended): the encoded Admin request header, generic 4-byte header
followed by opcode, flags, controller ID, cdw1..cdw5, data offset, data
length, 8 reserved bytes and cdw10..cdw15, has a total fixed size of exactly
68 bytes for every Admin request, of which 64 bytes follow the generic
header. -/
theorem admin_req_hdr_encode_length (h : nvme_mi_admin_req_hdr) :
    h.encode.length = 68 := by
  simp [nvme_mi_admin_req_hdr.encode, nvme_mi_msg_hdr.encode, le32, le16]

/-- Counterexample to C5 as stated: the encoded Admin request header of a
concrete request is not 64 bytes. -/
theorem admin_req_hdr_size_not_64 :
    (nvme_mi_admin_req_hdr.encode ⟨⟨0, 0, 0, 0⟩, 0, 0, 0, 0, 0, 0, 0, 0,
      0, 0, 0, 0, 0, 0, 0, 0, 0, 0⟩).length ≠ 64 := by decide

/-! ### Chunk schedule lemmas for the chunked transfer -/

lemma range_chunks_cons {α : Type} (W L : Nat) (hW : 0 < W) (hL : 0 < L)
    (g : Nat → Nat → α) (cursor : Nat) :
    (List.range ((L + W - 1) / W)).map
        (fun i => g (cursor + i * W) (min W (L - i * W))) =
      g cursor (min L W) ::
        (List.range ((L - min L W + W - 1) / W)).map
          (fun i => g (cursor + min L W + i * W) (min W (L - min L W - i * W))) := by
  rcases le_or_lt L W with hLW | hLW
  · have hm : min L W = L := Nat.min_eq_left hLW
    have hn : (L + W - 1) / W = 1 := by
      rw [show L + W - 1 = (L - 1) + W from by omega, Nat.add_div_right _ hW,
        Nat.div_eq_of_lt (show L - 1 < W by omega)]
    have hn2 : (L - min L W + W - 1) / W = 0 := by
      rw [hm, show L - L + W - 1 = W - 1 from by omega]
      exact Nat.div_eq_of_lt (by omega)
    rw [hn, hn2, hm]
    simp [List.range_succ, Nat.min_eq_right hLW]
  · have hm : min L W = W := Nat.min_eq_right (le_of_lt hLW)
    have hn : (L + W - 1) / W = (L - 1) / W + 1 := by
      rw [show L + W - 1 = (L - 1) + W from by omega, Nat.add_div_right _ hW]
    rw [hm, show L - W + W - 1 = L - 1 from by omega, hn,
      List.range_succ_eq_map, List.map_cons, List.map_map]
    congr 1
    · simp only [Nat.zero_mul, Nat.add_zero, Nat.sub_zero]
      rw [Nat.min_eq_left (le_of_lt hLW)]
    · apply List.map_congr_left
      intro i hi
      simp only [Function.comp_apply, Nat.succ_eq_add_one]
      rw [show cursor + (i + 1) * W = cursor + W + i * W from by
            rw [Nat.add_mul, Nat.one_mul]; omega,
          show L - (i + 1) * W = L - W - i * W from by
            rw [Nat.add_mul, Nat.one_mul]; omega]

lemma getLogChunksF_ok (t : Transport) (W opc : Nat) (cdws : List Nat)
    (pay : Nat → Nat → List Nat) (d0 d1 d3 : Nat) (hW : 0 < W)
    (hpay : ∀ o c, (pay o c).length = c)
    (ht : ∀ r, t r = .resp 0 d0 d1 d3 (pay r.doff r.dlen)) :
    ∀ fuel remaining cursor, remaining ≤ fuel →
      getLogChunksF t W opc cdws fuel cursor remaining =
        (.ok ((List.range ((remaining + W - 1) / W)).map
            (fun i => pay (cursor + i * W) (min W (remaining - i * W)))).flatten,
         (List.range ((remaining + W - 1) / W)).map
            (fun i => (⟨opc, cdws, cursor + i * W, min W (remaining - i * W), []⟩ : XferReq))) := by
  intro fuel
  induction fuel with
  | zero =>
    intro remaining cursor hle
    have h0 : remaining = 0 := Nat.le_zero.mp hle
    subst h0
    have hz : (0 + W - 1) / W = 0 := Nat.div_eq_of_lt (by omega)
    rw [hz]
    simp [getLogChunksF]
  | succ fuel ih =>
    intro remaining cursor hle
    rcases remaining with _ | rem
    · have hz : (0 + W - 1) / W = 0 := Nat.div_eq_of_lt (by omega)
      rw [hz]
      simp [getLogChunksF]
    · rw [getLogChunksF, if_neg (Nat.pos_iff_ne_zero.mp hW)]
      have hxfer : nvme_mi_admin_xfer t W opc cdws [] cursor (min (rem + 1) W) =
          (.ok ⟨d0, d1, d3, pay cursor (min (rem + 1) W)⟩,
           [⟨opc, cdws, cursor, min (rem + 1) W, []⟩]) := by
        rw [nvme_mi_admin_xfer, if_neg (by simp)]
        conv_lhs => rw [ht ⟨opc, cdws, cursor, min (rem + 1) W, []⟩]
        rfl
      rw [hxfer]
      dsimp only
      rw [hpay, if_pos rfl]
      rw [ih (rem + 1 - min (rem + 1) W) (cursor + min (rem + 1) W) (by omega)]
      simp only [range_chunks_cons W (rem + 1) hW (Nat.succ_pos rem) pay cursor,
        range_chunks_cons W (rem + 1) hW (Nat.succ_pos rem)
          (fun o c => (⟨opc, cdws, o, c, []⟩ : XferReq)) cursor,
        List.flatten_cons, List.singleton_append]
      omega

lemma getLogChunksF_fail (W opc : Nat) (cdws : List Nat)
    (pay : Nat → Nat → List Nat) (bad : XferOutcome) (d0 d1 d3 : Nat)
    (hW : 0 < W) (hpay : ∀ o c, (pay o c).length = c) :
    ∀ j fuel remaining cursor e, remaining ≤ fuel → j * W < remaining →
      outcomeErr bad (min W (remaining - j * W)) = some e →
      getLogChunksF (tWith pay bad (cursor + j * W) d0 d1 d3) W opc cdws
          fuel cursor remaining =
        (.error e,
         (List.range (j + 1)).map
           (fun i => (⟨opc, cdws, cursor + i * W, min W (remaining - i * W), []⟩ : XferReq))) := by
  intro j
  induction j with
  | zero =>
    intro fuel remaining cursor e hle hj hbad
    rcases fuel with _ | fuel
    · exact absurd hj (by omega)
    rcases remaining with _ | rem
    · exact absurd hj (by omega)
    simp only [Nat.zero_mul, Nat.add_zero, Nat.sub_zero] at hj hbad ⊢
    rw [getLogChunksF, if_neg (Nat.pos_iff_ne_zero.mp hW)]
    rw [nvme_mi_admin_xfer, if_neg (by simp)]
    rw [show tWith pay bad cursor d0 d1 d3 ⟨opc, cdws, cursor, min (rem + 1) W, []⟩ = bad from by
      unfold tWith
      simp]
    cases bad with
    | failed =>
      simp only [outcomeErr] at hbad
      obtain rfl : MiErr.transportError = e := Option.some.inj hbad
      simp [List.range_succ, Nat.min_comm]
    | resp s b0 b1 b3 p =>
      simp only [outcomeErr] at hbad
      by_cases hs : s = 0
      · subst hs
        rw [if_pos rfl] at hbad
        have hne : p.length ≠ min W (rem + 1) := by
          intro hcontra
          rw [if_pos hcontra] at hbad
          exact Option.noConfusion hbad
        rw [if_neg hne] at hbad
        obtain rfl : MiErr.commandError .truncated = e := Option.some.inj hbad
        have hne2 : ¬ p.length = min (rem + 1) W := by
          rw [Nat.min_comm]
          exact hne
        simp [hne2, List.range_succ, Nat.min_comm]
        intro hcontra
        exact absurd hcontra hne
      · rw [if_neg hs] at hbad
        obtain rfl := Option.some.inj hbad
        simp [hs, List.range_succ, Nat.min_comm]
    omega
  | succ j ih =>
    intro fuel remaining cursor e hle hj hbad
    have hmul : (j + 1) * W = j * W + W := by rw [Nat.add_mul, Nat.one_mul]
    have hjW : W ≤ (j + 1) * W := by omega
    rcases fuel with _ | fuel
    · exact absurd hle (by omega)
    rcases remaining with _ | rem
    · exact absurd hj (by omega)
    have hWr : W ≤ rem + 1 := le_trans hjW (le_of_lt hj)
    have hchunk : min (rem + 1) W = W := Nat.min_eq_right hWr
    have hxfer : nvme_mi_admin_xfer (tWith pay bad (cursor + (j + 1) * W) d0 d1 d3)
        W opc cdws [] cursor W =
        (.ok ⟨d0, d1, d3, pay cursor W⟩, [⟨opc, cdws, cursor, W, []⟩]) := by
      rw [nvme_mi_admin_xfer, if_neg (by simp)]
      conv_lhs =>
        rw [show tWith pay bad (cursor + (j + 1) * W) d0 d1 d3
              ⟨opc, cdws, cursor, W, []⟩ =
            XferOutcome.resp 0 d0 d1 d3 (pay cursor W) from by
          unfold tWith
          simp [show cursor < cursor + (j + 1) * W from by omega]]
      rfl
    rw [getLogChunksF, if_neg (Nat.pos_iff_ne_zero.mp hW), hchunk, hxfer]
    dsimp only
    rw [hpay, if_pos rfl]
    rw [show cursor + (j + 1) * W = cursor + W + j * W from by omega]
    have hj2 : j * W < rem + 1 - W := by omega
    have hsub : rem + 1 - (j + 1) * W = rem + 1 - W - j * W := by omega
    rw [hsub] at hbad
    rw [ih fuel (rem + 1 - W) (cursor + W) e (by omega) hj2 hbad]
    conv_rhs => rw [List.range_succ_eq_map, List.map_cons, List.map_map]
    simp only [Nat.zero_mul, Nat.add_zero, Nat.sub_zero, List.singleton_append]
    congr 1
    congr 1
    · rw [Nat.min_eq_left hWr]
    · apply List.map_congr_left
      intro i hi
      simp only [Function.comp_apply, Nat.succ_eq_add_one]
      rw [show cursor + W + i * W = cursor + (i + 1) * W from by
            rw [Nat.add_mul, Nat.one_mul]; omega,
          show rem + 1 - W - i * W = rem + 1 - (i + 1) * W from by
            rw [Nat.add_mul, Nat.one_mul]; omega]
    omega

/-! ### Claim theorems for the transfer engine -/

/-- C1: for every total inbound payload length L > 0 and transport window
W > 0, the chunked Get Log Page transfer issues exactly ceil(L/W) raw
single-exchange transfers; the i-th exchange requests offset lpo + i*W and
length min(W, L - i*W), and on success the caller buffer equals the
in-order concatenation of the chunk payloads. -/
theorem get_log_page_chunk_schedule (t : Transport) (W : Nat)
    (args : nvme_get_log_args) (pay : Nat → Nat → List Nat) (d0 d1 d3 : Nat)
    (hW : 0 < W) (hL : 0 < args.data_len)
    (hpay : ∀ o c, (pay o c).length = c)
    (ht : ∀ r, t r = XferOutcome.resp 0 d0 d1 d3 (pay r.doff r.dlen)) :
    nvme_mi_admin_get_log_page t W args =
      (Except.ok ((List.range ((args.data_len + W - 1) / W)).map
          (fun i => pay (args.lpo + i * W) (min W (args.data_len - i * W)))).flatten,
       (List.range ((args.data_len + W - 1) / W)).map
          (fun i => (⟨NVME_ADMIN_GET_LOG_PAGE, [args.lid, args.nsid],
            args.lpo + i * W, min W (args.data_len - i * W), []⟩ : XferReq))) := by
  have h0 := hL
  exact getLogChunksF_ok t W NVME_ADMIN_GET_LOG_PAGE [args.lid, args.nsid]
    pay d0 d1 d3 hW hpay ht args.data_len args.data_len args.lpo le_rfl

/-- Witness for C1: the concrete scenario of a 20-byte log page over an
8-byte window: three exchanges at offsets 0, 8, 16 with lengths 8, 8, 4,
reassembled into the 20-byte buffer. -/
theorem get_log_page_chunk_schedule_witness :
    0 < (20 : Nat) ∧
    nvme_mi_admin_get_log_page
        (fun r => XferOutcome.resp 0 5 6 9 (List.replicate r.dlen 7)) 8
        ⟨1, 0, 0, 20⟩ =
      (Except.ok (List.replicate 20 7),
       [⟨NVME_ADMIN_GET_LOG_PAGE, [1, 0], 0, 8, []⟩,
        ⟨NVME_ADMIN_GET_LOG_PAGE, [1, 0], 8, 8, []⟩,
        ⟨NVME_ADMIN_GET_LOG_PAGE, [1, 0], 16, 4, []⟩]) :=
  ⟨by decide,
   get_log_page_chunk_schedule
     (fun r => XferOutcome.resp 0 5 6 9 (List.replicate r.dlen 7)) 8
     ⟨1, 0, 0, 20⟩ (fun _ c => List.replicate c 7) 5 6 9 (by decide) (by decide)
     (fun o c => by simp) (fun r => rfl)⟩

/-- C2: if the j-th chunk of a chunked Get Log Page transfer fails (transport
failure, non-zero status, or a returned length different from the requested
chunk length), the whole logical transfer fails, exactly the first j+1
exchanges are issued (none after the failing one), no partial result is
returned as valid data, and a zero-status short chunk yields the distinct
truncated command error. -/
theorem get_log_page_abort_on_bad_chunk (W : Nat) (args : nvme_get_log_args)
    (pay : Nat → Nat → List Nat) (bad : XferOutcome) (d0 d1 d3 j : Nat)
    (e : MiErr) (hW : 0 < W) (hpay : ∀ o c, (pay o c).length = c)
    (hj : j * W < args.data_len)
    (hbad : outcomeErr bad (min W (args.data_len - j * W)) = some e) :
    nvme_mi_admin_get_log_page (tWith pay bad (args.lpo + j * W) d0 d1 d3) W args =
      (Except.error e,
       (List.range (j + 1)).map
         (fun i => (⟨NVME_ADMIN_GET_LOG_PAGE, [args.lid, args.nsid],
            args.lpo + i * W, min W (args.data_len - i * W), []⟩ : XferReq))) ∧
    (nvme_mi_admin_get_log_page (tWith pay bad (args.lpo + j * W) d0 d1 d3) W args).2.length
      = j + 1 ∧
    (∀ c0 c1 c3 p, bad = XferOutcome.resp 0 c0 c1 c3 p →
        e = MiErr.commandError CmdFailure.truncated) ∧
    (bad = XferOutcome.failed → e = MiErr.transportError) := by
  have hmain := getLogChunksF_fail W NVME_ADMIN_GET_LOG_PAGE
    [args.lid, args.nsid] pay bad d0 d1 d3 hW hpay j args.data_len
    args.data_len args.lpo e le_rfl hj hbad
  refine ⟨hmain, ?_, ?_, ?_⟩
  · have h2 : (nvme_mi_admin_get_log_page
        (tWith pay bad (args.lpo + j * W) d0 d1 d3) W args).2 =
        (List.range (j + 1)).map
          (fun i => (⟨NVME_ADMIN_GET_LOG_PAGE, [args.lid, args.nsid],
            args.lpo + i * W, min W (args.data_len - i * W), []⟩ : XferReq)) :=
      congrArg Prod.snd hmain
    rw [h2]
    simp
  · intro c0 c1 c3 p hbadeq
    subst hbadeq
    simp only [outcomeErr, if_true, eq_self_iff_true] at hbad
    by_cases hp : p.length = min W (args.data_len - j * W)
    · rw [if_pos hp] at hbad
      exact Option.noConfusion hbad
    · rw [if_neg hp] at hbad
      exact (Option.some.inj hbad).symm
  · intro hbadeq
    subst hbadeq
    simp only [outcomeErr] at hbad
    exact (Option.some.inj hbad).symm

/-- Witness for C2: a 12-byte transfer over a 4-byte window whose second
chunk returns an empty (short) payload aborts after exactly two exchanges
with the truncated command error. -/
theorem get_log_page_abort_on_bad_chunk_witness :
    1 * 4 < (12 : Nat) ∧
    nvme_mi_admin_get_log_page
        (tWith (fun _ c => List.replicate c 3) (XferOutcome.resp 0 0 0 0 [])
          (0 + 1 * 4) 0 0 0) 4 ⟨2, 5, 0, 12⟩ =
      (Except.error (MiErr.commandError CmdFailure.truncated),
       [⟨NVME_ADMIN_GET_LOG_PAGE, [2, 5], 0, 4, []⟩,
        ⟨NVME_ADMIN_GET_LOG_PAGE, [2, 5], 4, 4, []⟩]) :=
  ⟨by decide,
   (get_log_page_abort_on_bad_chunk 4 ⟨2, 5, 0, 12⟩ (fun _ c => List.replicate c 3)
     (XferOutcome.resp 0 0 0 0 []) 0 0 0 1 (MiErr.commandError CmdFailure.truncated)
     (by decide) (fun o c => by simp) (by decide) (by decide)).1⟩

/-- C3: the partial-range Identify returns success only when the actual
returned payload length equals the requested size exactly; a zero-status
response whose payload length deviates from the requested size (shorter or
longer) yields the truncated command error, never a silently truncated or
padded success. -/
theorem identify_range_exact_length :
    (∀ (t : Transport) (W : Nat) (args : nvme_identify_args)
        (offset size : Nat) (p : List Nat) (tr : List XferReq),
        nvme_mi_admin_identify_range t W args offset size = (Except.ok p, tr) →
        p.length = size) ∧
    (∀ (t : Transport) (W : Nat) (args : nvme_identify_args)
        (offset size : Nat) (d0 d1 d3 : Nat) (p : List Nat), size ≤ W →
        t ⟨NVME_ADMIN_IDENTIFY, identifyCdws args, offset, size, []⟩ =
          XferOutcome.resp 0 d0 d1 d3 p →
        p.length ≠ size →
        nvme_mi_admin_identify_range t W args offset size =
          (Except.error (MiErr.commandError CmdFailure.truncated),
           [⟨NVME_ADMIN_IDENTIFY, identifyCdws args, offset, size, []⟩])) := by
  constructor
  · intro t W args offset size p tr h
    unfold nvme_mi_admin_identify_range at h
    rcases hx : nvme_mi_admin_xfer t W NVME_ADMIN_IDENTIFY (identifyCdws args)
        [] offset size with ⟨res, trace⟩
    rw [hx] at h
    rcases res with e | r
    · simp at h
    · by_cases hlen : r.payload.length = size
      · simp only [hlen, if_true, eq_self_iff_true, Prod.mk.injEq,
          Except.ok.injEq] at h
        exact h.1 ▸ hlen
      · simp [hlen] at h
  · intro t W args offset size d0 d1 d3 p hsize ht hne
    unfold nvme_mi_admin_identify_range
    have hxfer : nvme_mi_admin_xfer t W NVME_ADMIN_IDENTIFY (identifyCdws args)
        [] offset size =
        (Except.ok ⟨d0, d1, d3, p⟩,
         [⟨NVME_ADMIN_IDENTIFY, identifyCdws args, offset, size, []⟩]) := by
      rw [nvme_mi_admin_xfer, if_neg (by simp; omega)]
      conv_lhs => rw [ht]
      rfl
    rw [hxfer]
    dsimp only
    rw [if_neg hne]

/-- Witness for C3: an Identify asking 4 bytes succeeds when the stub returns
exactly 4 bytes (and that length is 4), and fails with the truncated command
error when the stub returns only 2 bytes. -/
theorem identify_range_exact_length_witness :
    nvme_mi_admin_identify_range (fun _ => XferOutcome.resp 0 0 0 0 [1, 2, 3, 4]) 4
        ⟨1, 0, 0, 0, 0, 0⟩ 0 4 =
      (Except.ok [1, 2, 3, 4], [⟨NVME_ADMIN_IDENTIFY, [1, 0, 0, 0, 0, 0], 0, 4, []⟩]) ∧
    ([1, 2, 3, 4] : List Nat).length = 4 ∧
    nvme_mi_admin_identify_range (fun _ => XferOutcome.resp 0 0 0 0 [1, 2]) 4
        ⟨1, 0, 0, 0, 0, 0⟩ 0 4 =
      (Except.error (MiErr.commandError CmdFailure.truncated),
       [⟨NVME_ADMIN_IDENTIFY, [1, 0, 0, 0, 0, 0], 0, 4, []⟩]) :=
  ⟨rfl,
   identify_range_exact_length.1 (fun _ => XferOutcome.resp 0 0 0 0 [1, 2, 3, 4]) 4
     ⟨1, 0, 0, 0, 0, 0⟩ 0 4 [1, 2, 3, 4]
     [⟨NVME_ADMIN_IDENTIFY, [1, 0, 0, 0, 0, 0], 0, 4, []⟩] rfl,
   identify_range_exact_length.2 (fun _ => XferOutcome.resp 0 0 0 0 [1, 2]) 4
     ⟨1, 0, 0, 0, 0, 0⟩ 0 4 0 0 0 [1, 2] (by decide) rfl (by decide)⟩

/-- C4: Security Send and Security Receive reject any request whose data
length exceeds the 4096-byte ceiling with an argument error before any wire
exchange (zero transport invocations), and neither ever splits its payload
into more than one wire exchange. -/
theorem security_payload_ceiling :
    (∀ (t : Transport) (W : Nat) (args : nvme_security_send_args),
        4096 < args.data.length →
        nvme_mi_admin_security_send t W args = (Except.error MiErr.argumentError, [])) ∧
    (∀ (t : Transport) (W : Nat) (args : nvme_security_receive_args),
        4096 < args.al →
        nvme_mi_admin_security_recv t W args = (Except.error MiErr.argumentError, [])) ∧
    (∀ (t : Transport) (W : Nat) (args : nvme_security_send_args),
        (nvme_mi_admin_security_send t W args).2.length ≤ 1) ∧
    (∀ (t : Transport) (W : Nat) (args : nvme_security_receive_args),
        (nvme_mi_admin_security_recv t W args).2.length ≤ 1) := by
  have hxlen : ∀ (t : Transport) (W opc : Nat) (cdws reqPayload : List Nat)
      (off sz : Nat),
      (nvme_mi_admin_xfer t W opc cdws reqPayload off sz).2.length ≤ 1 := by
    intro t W opc cdws reqPayload off sz
    rw [nvme_mi_admin_xfer]
    split
    · simp
    · cases t ⟨opc, cdws, off, sz, reqPayload⟩ with
      | failed => simp
      | resp s c0 c1 c3 p =>
        dsimp only
        split <;> simp
  refine ⟨?_, ?_, ?_, ?_⟩
  · intro t W args h
    rw [nvme_mi_admin_security_send, if_pos h]
  · intro t W args h
    rw [nvme_mi_admin_security_recv, if_pos h]
  · intro t W args
    rw [nvme_mi_admin_security_send]
    split
    · simp
    · exact hxlen t W NVME_ADMIN_SECURITY_SEND
        (securityCdws args.secp args.spsp0 args.spsp1 args.nssf) args.data 0 0
  · intro t W args
    rw [nvme_mi_admin_security_recv]
    split
    · simp
    · exact hxlen t W NVME_ADMIN_SECURITY_RECV
        (securityCdws args.secp args.spsp0 args.spsp1 args.nssf) [] 0 args.al

/-- Witness for C4: a 4097-byte Security Send and a 4097-byte Security
Receive both fail with the argument error and issue zero exchanges. -/
theorem security_payload_ceiling_witness :
    4096 < (List.replicate 4097 0).length ∧
    nvme_mi_admin_security_send (fun _ => XferOutcome.failed) 8
        ⟨0, 0, 0, 0, List.replicate 4097 0⟩ = (Except.error MiErr.argumentError, []) ∧
    nvme_mi_admin_security_recv (fun _ => XferOutcome.failed) 8 ⟨0, 0, 0, 0, 4097⟩ =
      (Except.error MiErr.argumentError, []) :=
  ⟨by rw [List.length_replicate]; omega,
   security_payload_ceiling.1 (fun _ => XferOutcome.failed) 8
     ⟨0, 0, 0, 0, List.replicate 4097 0⟩
     (by show (4096 : Nat) < (List.replicate 4097 0).length
         rw [List.length_replicate]
         omega),
   security_payload_ceiling.2.1 (fun _ => XferOutcome.failed) 8
     ⟨0, 0, 0, 0, 4097⟩ (by decide)⟩

/-- C9: a raw single-exchange Admin transfer with req_size = 0 and
resp_size = 0 is a valid header-only command for every window size: it is
not rejected as an argument error, and on a transport answering a
zero-status response it succeeds with an empty payload (response data size
0). -/
theorem admin_xfer_zero_sizes (t : Transport) (W opc : Nat) (cdws : List Nat)
    (d0 d1 d3 : Nat)
    (ht : t ⟨opc, cdws, 0, 0, []⟩ = XferOutcome.resp 0 d0 d1 d3 []) :
    nvme_mi_admin_xfer t W opc cdws [] 0 0 =
      (Except.ok ⟨d0, d1, d3, []⟩, [⟨opc, cdws, 0, 0, []⟩]) := by
  rw [nvme_mi_admin_xfer, if_neg (by simp)]
  conv_lhs => rw [ht]
  rfl

/-- Witness for C9 on a concrete echo stub, with window 0. -/
theorem admin_xfer_zero_sizes_witness :
    (fun (_ : XferReq) => XferOutcome.resp 0 1 2 3 ([] : List Nat))
        ⟨6, [], 0, 0, []⟩ = XferOutcome.resp 0 1 2 3 [] ∧
    nvme_mi_admin_xfer (fun _ => XferOutcome.resp 0 1 2 3 []) 0 6 [] [] 0 0 =
      (Except.ok ⟨1, 2, 3, []⟩, [⟨6, [], 0, 0, []⟩]) :=
  ⟨rfl, admin_xfer_zero_sizes (fun _ => XferOutcome.resp 0 1 2 3 []) 0 6 [] 1 2 3 rfl⟩

/-! ### Lifecycle claim -/

lemma getD_set_true : ∀ (w : List Bool) (e : Nat),
    (w.set e true).getD e true = true := by
  intro w
  induction w with
  | nil => intro e; simp
  | cons b bs ih =>
    intro e
    cases e with
    | zero => simp
    | succ e2 =>
      simp only [List.set]
      simpa using ih e2

lemma getElem?_set_true (w : List Bool) (e : Nat) :
    ((w.set e true)[e]?).getD true = true := by
  induction w generalizing e with
  | nil => simp
  | cons b bs ih =>
    cases e with
    | zero => simp
    | succ e2 =>
      simp only [List.set]
      simpa using ih e2

/-- C8: after closing an endpoint, every operation dispatched through any
controller previously initialized under that endpoint fails with the
explicit stale-reference error and issues no wire exchange (the freed
transport is never used), for every possible operation body k. -/
theorem closed_endpoint_stale (w : MiWorld) (e cid : Nat) (c : nvme_mi_ctrl)
    (tpt : Nat → Transport)
    (k : Transport → Except MiErr XferOk × List XferReq)
    (hinit : nvme_mi_init_ctrl w e cid = some c) :
    ctrlDispatch (nvme_mi_close w e) tpt c k =
      (Except.error MiErr.staleReference, []) := by
  unfold nvme_mi_init_ctrl at hinit
  by_cases hopen : w.getD e true = false
  · rw [if_pos hopen] at hinit
    obtain rfl : (⟨e, cid⟩ : nvme_mi_ctrl) = c := Option.some.inj hinit
    unfold ctrlDispatch epClosed nvme_mi_close
    simp [getElem?_set_true]
  · rw [if_neg hopen] at hinit
    exact Option.noConfusion hinit

/-- Witness for C8: a controller initialized under endpoint 0 of a one-open
endpoint world becomes stale after the endpoint is closed. -/
theorem closed_endpoint_stale_witness :
    nvme_mi_init_ctrl [false] 0 7 = some ⟨0, 7⟩ ∧
    ctrlDispatch (nvme_mi_close [false] 0) (fun _ _ => XferOutcome.failed) ⟨0, 7⟩
        (fun _ => (Except.ok ⟨0, 0, 0, []⟩, [])) =
      (Except.error MiErr.staleReference, []) :=
  ⟨rfl,
   closed_endpoint_stale [false] 0 7 ⟨0, 7⟩ (fun _ _ => XferOutcome.failed)
     (fun _ => (Except.ok ⟨0, 0, 0, []⟩, [])) rfl⟩

/-- C10: nvme_mi_admin_identify is exactly the partial-range identify at
offset 0 for NVME_IDENTIFY_DATA_SIZE bytes, and
nvme_mi_admin_identify_cns_nsid delegates to it with the sentinel defaults
NVME_CNTLID_NONE, NVME_CNSSPECID_NONE and NVME_UUID_NONE populated (and CSI
fixed to NVME_CSI_NVM). -/
theorem identify_delegation :
    (∀ (t : Transport) (W : Nat) (args : nvme_identify_args),
        nvme_mi_admin_identify t W args =
          nvme_mi_admin_identify_range t W args 0 NVME_IDENTIFY_DATA_SIZE) ∧
    (∀ (t : Transport) (W : Nat) (cns nsid : Nat),
        nvme_mi_admin_identify_cns_nsid t W cns nsid =
          nvme_mi_admin_identify_range t W
            ⟨cns, NVME_CSI_NVM, nsid, NVME_CNTLID_NONE, NVME_CNSSPECID_NONE,
             NVME_UUID_NONE⟩ 0 NVME_IDENTIFY_DATA_SIZE) :=
  ⟨fun _ _ _ => rfl, fun _ _ _ _ => rfl⟩

end LibnvmeMi
